import Mathlib

/-!
# CATNESEMU4K — verification of the NES emulator core

This file gives a shallow embedding, in Lean 4, of the parts of the
CATNESEMU4K repository that the specification's checkable claims are about:

* the 6502 CPU interpreter of `EMUNES5.23.251.0A.py` (`CPU6502`):
  registers, flags, stack helpers, every addressing mode, every operation
  of the dispatch table, the full 256-entry dispatch (unlisted opcodes
  fall back to a 2-cycle implied NOP exactly as the source's fill-in
  loop does), `reset()` and `clock()`;
* the PPU register file of `EMUNES5.23.251.0A.py` (`PPU2C02.cpu_read` /
  `cpu_write`) and the PPU-space bus decoding of `Bus.ppu_read` /
  `Bus.ppu_write` (CHR, nametable mirroring, palette aliasing);
* the scanline/cycle/frame counter portion of `PPU2C02.clock` of both
  `EMUNES5.23.251.0A.py` and `MonikaNES.py`;
* the iNES loader `NESRom.__init__` of `EMUNES5.23.251.0A.py`;
* the `Cartridge` constructor and CPU-space decoding of
  `CATNES5.23.251.0AA.py`;
* the palette write path of `MonikaNES.py`'s `Bus.ppu_write` /
  `ppu_read`, and `MonikaNES.py`'s `CPU6502.branch` and `reset`.

Numbers are `Nat` with explicit masking, mirroring Python's unbounded
integers with `&`-masking.  Python's `x & ~mask` on a possibly negative
left operand is rendered as `x - (x &&& mask)` (equal for all naturals),
and Python's `(x - y) & 0xFF`, whose left side may be negative, as
`((x - y : Int).emod 256).toNat`.  Byte stores into `bytearray`s are
function updates.  The CPU reaches memory only through `Bus.cpu_read` /
`cpu_write`, which mask the address to 16 bits; the bus is abstracted
here as a function `Nat → Nat` over masked addresses (the claims below
exercise only RAM/cartridge reads, which are side-effect free).
-/

namespace Emunes

/-! ## CPU6502 of EMUNES5.23.251.0A.py -/

/-- Addressing modes of the dispatch table (`CPU6502._init_lookup_table`). -/
inductive AddrMode
  | imp | acc | imm | zp0 | zpx | zpy | rel | abs | abx | aby | ind | izx | izy
deriving DecidableEq, Repr

/-- Operations of the dispatch table (`CPU6502._init_lookup_table`). -/
inductive Op
  | adc | and | asl | bcc | bcs | beq | bit | bmi | bne | bpl | brk | bvc
  | bvs | clc | cld | cli | clv | cmp | cpx | cpy | dec | dex | dey | eor
  | inc | inx | iny | jmp | jsr | lda | ldx | ldy | lsr | nop | ora | pha
  | php | pla | plp | rol | ror | rti | rts | sbc | sec | sed | sei | sta
  | stx | sty | tax | tay | tsx | txa | txs | tya
deriving DecidableEq, Repr

/-- Status flag masks (`CPU6502.FLAG_C` …). -/
def flagC : Nat := 0x01

def flagZ : Nat := 0x02

def flagI : Nat := 0x04

def flagD : Nat := 0x08

def flagB : Nat := 0x10

def flagU : Nat := 0x20

def flagV : Nat := 0x40

def flagN : Nat := 0x80

/-- CPU state: the registers and internal fields of `CPU6502.__init__`,
plus the bus memory seen through `Bus.cpu_read`/`cpu_write` (a byte per
masked 16-bit address).  The DMA fields are omitted: no modelled routine
touches them. -/
structure CpuState where
  a : Nat
  x : Nat
  y : Nat
  stkp : Nat
  pc : Nat
  status : Nat
  fetched : Nat
  addr_abs : Nat
  addr_rel : Nat
  opcode : Nat
  cycles : Nat
  mem : Nat → Nat

/-- Memory read: `CPU6502.read` delegating to `Bus.cpu_read`, which masks
the address to 16 bits (`addr &= 0xFFFF`). -/
def cpuRead (st : CpuState) (addr : Nat) : Nat :=
  st.mem (addr &&& 0xFFFF)

/-- Memory write: `CPU6502.write` delegating to `Bus.cpu_write` (address
masked to 16 bits). -/
def cpuWrite (st : CpuState) (addr data : Nat) : CpuState :=
  { st with mem := fun a => if a = addr &&& 0xFFFF then data else st.mem a }

/-- `CPU6502.get_flag`: `(status & flag) != 0`. -/
def getFlag (st : CpuState) (flag : Nat) : Bool :=
  st.status &&& flag != 0

/-- `CPU6502.set_flag`.  Python clears a bit with `status &= ~flag`, which
on naturals equals `status - (status &&& flag)`. -/
def setFlag (st : CpuState) (flag : Nat) (v : Bool) : CpuState :=
  { st with status := if v then st.status ||| flag else st.status - (st.status &&& flag) }

/-- `(u - v) & 0xFF` in Python, where `u - v` may be negative. -/
def sub8 (u v : Nat) : Nat :=
  (((u : Int) - (v : Int)).emod 256).toNat

/-- `CPU6502.push`: write at `0x0100 + stkp`, then `stkp = (stkp - 1) & 0xFF`
(the decrement-of-possibly-zero is `(stkp + 0xFF) & 0xFF` on naturals). -/
def pushByte (st : CpuState) (data : Nat) : CpuState :=
  let st' := cpuWrite st (0x0100 + st.stkp) data
  { st' with stkp := (st'.stkp + 0xFF) &&& 0xFF }

/-- `CPU6502.pop`: `stkp = (stkp + 1) & 0xFF`, then read `0x0100 + stkp`. -/
def popByte (st : CpuState) : CpuState × Nat :=
  let sp := (st.stkp + 1) &&& 0xFF
  ({ st with stkp := sp }, cpuRead st (0x0100 + sp))

/-- `CPU6502.push_word`: high byte first, then low byte. -/
def pushWord (st : CpuState) (data : Nat) : CpuState :=
  pushByte (pushByte st ((data >>> 8) &&& 0xFF)) (data &&& 0xFF)

/-- `CPU6502.pop_word`: low byte first, then high byte. -/
def popWord (st : CpuState) : CpuState × Nat :=
  let (st1, lo) := popByte st
  let (st2, hi) := popByte st1
  (st2, (hi <<< 8) ||| lo)

/-- `CPU6502.reset`: zero registers, `stkp = 0xFD`, `status = 0x24`, load
`pc` from the vector at 0xFFFC/0xFFFD, clear internals, `cycles = 8`. -/
def reset (st : CpuState) : CpuState :=
  let st1 := { st with a := 0x00, x := 0x00, y := 0x00, stkp := 0xFD, status := 0x24 }
  let lo := cpuRead st1 0xFFFC
  let hi := cpuRead st1 0xFFFD
  { st1 with pc := (hi <<< 8) ||| lo, addr_rel := 0x00, addr_abs := 0x0000,
             fetched := 0x00, cycles := 8 }

/-- The 256-entry dispatch: the `instructions` dictionary of
`CPU6502._init_lookup_table`, with every unlisted opcode filled in as
`(IMP, NOP, 2)` exactly as the source's fill-in loop does. -/
def lookup (opcode : Nat) : AddrMode × Op × Nat :=
  match opcode with
  | 0x00 => (.imp, .brk, 7)
  | 0x01 => (.izx, .ora, 6)
  | 0x05 => (.zp0, .ora, 3)
  | 0x06 => (.zp0, .asl, 5)
  | 0x08 => (.imp, .php, 3)
  | 0x09 => (.imm, .ora, 2)
  | 0x0A => (.acc, .asl, 2)
  | 0x0D => (.abs, .ora, 4)
  | 0x0E => (.abs, .asl, 6)
  | 0x10 => (.rel, .bpl, 2)
  | 0x11 => (.izy, .ora, 5)
  | 0x15 => (.zpx, .ora, 4)
  | 0x16 => (.zpx, .asl, 6)
  | 0x18 => (.imp, .clc, 2)
  | 0x19 => (.aby, .ora, 4)
  | 0x1D => (.abx, .ora, 4)
  | 0x1E => (.abx, .asl, 7)
  | 0x20 => (.abs, .jsr, 6)
  | 0x21 => (.izx, .and, 6)
  | 0x24 => (.zp0, .bit, 3)
  | 0x25 => (.zp0, .and, 3)
  | 0x26 => (.zp0, .rol, 5)
  | 0x28 => (.imp, .plp, 4)
  | 0x29 => (.imm, .and, 2)
  | 0x2A => (.acc, .rol, 2)
  | 0x2C => (.abs, .bit, 4)
  | 0x2D => (.abs, .and, 4)
  | 0x2E => (.abs, .rol, 6)
  | 0x30 => (.rel, .bmi, 2)
  | 0x31 => (.izy, .and, 5)
  | 0x35 => (.zpx, .and, 4)
  | 0x36 => (.zpx, .rol, 6)
  | 0x38 => (.imp, .sec, 2)
  | 0x39 => (.aby, .and, 4)
  | 0x3D => (.abx, .and, 4)
  | 0x3E => (.abx, .rol, 7)
  | 0x40 => (.imp, .rti, 6)
  | 0x41 => (.izx, .eor, 6)
  | 0x45 => (.zp0, .eor, 3)
  | 0x46 => (.zp0, .lsr, 5)
  | 0x48 => (.imp, .pha, 3)
  | 0x49 => (.imm, .eor, 2)
  | 0x4A => (.acc, .lsr, 2)
  | 0x4C => (.abs, .jmp, 3)
  | 0x4D => (.abs, .eor, 4)
  | 0x4E => (.abs, .lsr, 6)
  | 0x50 => (.rel, .bvc, 2)
  | 0x51 => (.izy, .eor, 5)
  | 0x55 => (.zpx, .eor, 4)
  | 0x56 => (.zpx, .lsr, 6)
  | 0x58 => (.imp, .cli, 2)
  | 0x59 => (.aby, .eor, 4)
  | 0x5D => (.abx, .eor, 4)
  | 0x5E => (.abx, .lsr, 7)
  | 0x60 => (.imp, .rts, 6)
  | 0x61 => (.izx, .adc, 6)
  | 0x65 => (.zp0, .adc, 3)
  | 0x66 => (.zp0, .ror, 5)
  | 0x68 => (.imp, .pla, 4)
  | 0x69 => (.imm, .adc, 2)
  | 0x6A => (.acc, .ror, 2)
  | 0x6C => (.ind, .jmp, 5)
  | 0x6D => (.abs, .adc, 4)
  | 0x6E => (.abs, .ror, 6)
  | 0x70 => (.rel, .bvs, 2)
  | 0x71 => (.izy, .adc, 5)
  | 0x75 => (.zpx, .adc, 4)
  | 0x76 => (.zpx, .ror, 6)
  | 0x78 => (.imp, .sei, 2)
  | 0x79 => (.aby, .adc, 4)
  | 0x7D => (.abx, .adc, 4)
  | 0x7E => (.abx, .ror, 7)
  | 0x81 => (.izx, .sta, 6)
  | 0x84 => (.zp0, .sty, 3)
  | 0x85 => (.zp0, .sta, 3)
  | 0x86 => (.zp0, .stx, 3)
  | 0x88 => (.imp, .dey, 2)
  | 0x8A => (.imp, .txa, 2)
  | 0x8C => (.abs, .sty, 4)
  | 0x8D => (.abs, .sta, 4)
  | 0x8E => (.abs, .stx, 4)
  | 0x90 => (.rel, .bcc, 2)
  | 0x91 => (.izy, .sta, 6)
  | 0x94 => (.zpx, .sty, 4)
  | 0x95 => (.zpx, .sta, 4)
  | 0x96 => (.zpy, .stx, 4)
  | 0x98 => (.imp, .tya, 2)
  | 0x99 => (.aby, .sta, 5)
  | 0x9A => (.imp, .txs, 2)
  | 0x9D => (.abx, .sta, 5)
  | 0xA0 => (.imm, .ldy, 2)
  | 0xA1 => (.izx, .lda, 6)
  | 0xA2 => (.imm, .ldx, 2)
  | 0xA4 => (.zp0, .ldy, 3)
  | 0xA5 => (.zp0, .lda, 3)
  | 0xA6 => (.zp0, .ldx, 3)
  | 0xA8 => (.imp, .tay, 2)
  | 0xA9 => (.imm, .lda, 2)
  | 0xAA => (.imp, .tax, 2)
  | 0xAC => (.abs, .ldy, 4)
  | 0xAD => (.abs, .lda, 4)
  | 0xAE => (.abs, .ldx, 4)
  | 0xB0 => (.rel, .bcs, 2)
  | 0xB1 => (.izy, .lda, 5)
  | 0xB4 => (.zpx, .ldy, 4)
  | 0xB5 => (.zpx, .lda, 4)
  | 0xB6 => (.zpy, .ldx, 4)
  | 0xB8 => (.imp, .clv, 2)
  | 0xB9 => (.aby, .lda, 4)
  | 0xBA => (.imp, .tsx, 2)
  | 0xBC => (.abx, .ldy, 4)
  | 0xBD => (.abx, .lda, 4)
  | 0xBE => (.aby, .ldx, 4)
  | 0xC0 => (.imm, .cpy, 2)
  | 0xC1 => (.izx, .cmp, 6)
  | 0xC4 => (.zp0, .cpy, 3)
  | 0xC5 => (.zp0, .cmp, 3)
  | 0xC6 => (.zp0, .dec, 5)
  | 0xC8 => (.imp, .iny, 2)
  | 0xC9 => (.imm, .cmp, 2)
  | 0xCA => (.imp, .dex, 2)
  | 0xCC => (.abs, .cpy, 4)
  | 0xCD => (.abs, .cmp, 4)
  | 0xCE => (.abs, .dec, 6)
  | 0xD0 => (.rel, .bne, 2)
  | 0xD1 => (.izy, .cmp, 5)
  | 0xD5 => (.zpx, .cmp, 4)
  | 0xD6 => (.zpx, .dec, 6)
  | 0xD8 => (.imp, .cld, 2)
  | 0xD9 => (.aby, .cmp, 4)
  | 0xDD => (.abx, .cmp, 4)
  | 0xDE => (.abx, .dec, 7)
  | 0xE0 => (.imm, .cpx, 2)
  | 0xE1 => (.izx, .sbc, 6)
  | 0xE4 => (.zp0, .cpx, 3)
  | 0xE5 => (.zp0, .sbc, 3)
  | 0xE6 => (.zp0, .inc, 5)
  | 0xE8 => (.imp, .inx, 2)
  | 0xE9 => (.imm, .sbc, 2)
  | 0xEA => (.imp, .nop, 2)
  | 0xEC => (.abs, .cpx, 4)
  | 0xED => (.abs, .sbc, 4)
  | 0xEE => (.abs, .inc, 6)
  | 0xF0 => (.rel, .beq, 2)
  | 0xF1 => (.izy, .sbc, 5)
  | 0xF5 => (.zpx, .sbc, 4)
  | 0xF6 => (.zpx, .inc, 6)
  | 0xF8 => (.imp, .sed, 2)
  | 0xF9 => (.aby, .sbc, 4)
  | 0xFD => (.abx, .sbc, 4)
  | 0xFE => (.abx, .inc, 7)
  | _ => (.imp, .nop, 2)

/-- Addressing-mode routines.  They return the state together with the
extra-cycle indicator the Python methods return.  Note that, except for
the opcode fetch in `clock`, the source increments `pc` WITHOUT masking
(`self.pc += 1`). -/
def runMode (m : AddrMode) (st : CpuState) : CpuState × Nat :=
  match m with
  | .imp => (st, 0)
  | .acc => (st, 0)
  | .imm => ({ st with addr_abs := st.pc, pc := st.pc + 1 }, 0)
  | .zp0 => ({ st with addr_abs := cpuRead st st.pc, pc := st.pc + 1 }, 0)
  | .zpx => ({ st with addr_abs := (cpuRead st st.pc + st.x) &&& 0xFF, pc := st.pc + 1 }, 0)
  | .zpy => ({ st with addr_abs := (cpuRead st st.pc + st.y) &&& 0xFF, pc := st.pc + 1 }, 0)
  | .rel =>
      let r := cpuRead st st.pc
      let r := if r &&& 0x80 != 0 then r ||| 0xFF00 else r
      ({ st with addr_rel := r, pc := st.pc + 1 }, 0)
  | .abs =>
      let lo := cpuRead st st.pc
      let hi := cpuRead st (st.pc + 1)
      ({ st with addr_abs := (hi <<< 8) ||| lo, pc := st.pc + 2 }, 0)
  | .abx =>
      let lo := cpuRead st st.pc
      let hi := cpuRead st (st.pc + 1)
      let addr := ((hi <<< 8) ||| lo) + st.x
      ({ st with addr_abs := addr, pc := st.pc + 2 },
       if addr &&& 0xFF00 != hi <<< 8 then 1 else 0)
  | .aby =>
      let lo := cpuRead st st.pc
      let hi := cpuRead st (st.pc + 1)
      let addr := ((hi <<< 8) ||| lo) + st.y
      ({ st with addr_abs := addr, pc := st.pc + 2 },
       if addr &&& 0xFF00 != hi <<< 8 then 1 else 0)
  | .ind =>
      let ptr_lo := cpuRead st st.pc
      let ptr_hi := cpuRead st (st.pc + 1)
      let ptr := (ptr_hi <<< 8) ||| ptr_lo
      let addr :=
        if ptr_lo = 0xFF then
          (cpuRead st (ptr &&& 0xFF00) <<< 8) ||| cpuRead st ptr
        else
          (cpuRead st (ptr + 1) <<< 8) ||| cpuRead st ptr
      ({ st with addr_abs := addr, pc := st.pc + 2 }, 0)
  | .izx =>
      let t := cpuRead st st.pc
      let lo := cpuRead st ((t + st.x) &&& 0xFF)
      let hi := cpuRead st ((t + st.x + 1) &&& 0xFF)
      ({ st with addr_abs := (hi <<< 8) ||| lo, pc := st.pc + 1 }, 0)
  | .izy =>
      let t := cpuRead st st.pc
      let lo := cpuRead st (t &&& 0xFF)
      let hi := cpuRead st ((t + 1) &&& 0xFF)
      let addr := ((hi <<< 8) ||| lo) + st.y
      ({ st with addr_abs := addr, pc := st.pc + 1 },
       if addr &&& 0xFF00 != hi <<< 8 then 1 else 0)

/-- `CPU6502.fetch`: read the operand unless the mode is implied or
accumulator, in which case the accumulator is used. -/
def fetch (st : CpuState) : CpuState :=
  if (lookup st.opcode).1 = .imp ∨ (lookup st.opcode).1 = .acc then
    { st with fetched := st.a }
  else
    { st with fetched := cpuRead st st.addr_abs }

/-- `CPU6502._branch`: on a taken branch add a cycle, compute the target
as the UNMASKED sum `pc + addr_rel`, add one more cycle when the target's
page differs from the incremented PC's page, and jump. -/
def execBranch (cond : Bool) (st : CpuState) : CpuState × Nat :=
  if cond then
    let st1 := { st with cycles := st.cycles + 1 }
    let st2 := { st1 with addr_abs := st1.pc + st1.addr_rel }
    let st3 :=
      if st2.addr_abs &&& 0xFF00 != st2.pc &&& 0xFF00 then
        { st2 with cycles := st2.cycles + 1 }
      else st2
    ({ st3 with pc := st3.addr_abs }, 0)
  else (st, 0)

/-- Operation routines: `CPU6502.ADC` … `TYA`, each following its Python
method line by line; the returned number is the method's return value.
Python's `~(a ^ f) & (a ^ t) & 0x80` is rendered with `^^^ 0xFF`, which
agrees on bit 7. -/
def runOp (o : Op) (st : CpuState) : CpuState × Nat :=
  match o with
  | .adc =>
      let st := fetch st
      let temp := st.a + st.fetched + (if getFlag st flagC then 1 else 0)
      let st := setFlag st flagC (temp > 255)
      let st := setFlag st flagZ (temp &&& 0xFF == 0)
      let st := setFlag st flagV ((((st.a ^^^ st.fetched) ^^^ 0xFF) &&& (st.a ^^^ temp) &&& 0x80) != 0)
      let st := setFlag st flagN (temp &&& 0x80 != 0)
      ({ st with a := temp &&& 0xFF }, 1)
  | .and =>
      let st := fetch st
      let st := { st with a := st.a &&& st.fetched }
      let st := setFlag st flagZ (st.a == 0)
      let st := setFlag st flagN (st.a &&& 0x80 != 0)
      (st, 1)
  | .asl =>
      if (lookup st.opcode).1 = .acc then
        let st := setFlag st flagC (st.a &&& 0x80 != 0)
        let st := { st with a := (st.a <<< 1) &&& 0xFF }
        let st := setFlag st flagZ (st.a == 0)
        let st := setFlag st flagN (st.a &&& 0x80 != 0)
        (st, 0)
      else
        let st := fetch st
        let st := setFlag st flagC (st.fetched &&& 0x80 != 0)
        let temp := (st.fetched <<< 1) &&& 0xFF
        let st := cpuWrite st st.addr_abs temp
        let st := setFlag st flagZ (temp == 0)
        let st := setFlag st flagN (temp &&& 0x80 != 0)
        (st, 0)
  | .bcc => execBranch (!getFlag st flagC) st
  | .bcs => execBranch (getFlag st flagC) st
  | .beq => execBranch (getFlag st flagZ) st
  | .bmi => execBranch (getFlag st flagN) st
  | .bne => execBranch (!getFlag st flagZ) st
  | .bpl => execBranch (!getFlag st flagN) st
  | .bvc => execBranch (!getFlag st flagV) st
  | .bvs => execBranch (getFlag st flagV) st
  | .bit =>
      let st := fetch st
      let temp := st.a &&& st.fetched
      let st := setFlag st flagZ (temp == 0)
      let st := setFlag st flagN (st.fetched &&& 0x80 != 0)
      let st := setFlag st flagV (st.fetched &&& 0x40 != 0)
      (st, 0)
  | .brk =>
      let st := { st with pc := st.pc + 1 }
      let st := pushWord st st.pc
      let st := pushByte st (st.status ||| flagB ||| flagU)
      let st := setFlag st flagI true
      let st := { st with pc := cpuRead st 0xFFFE ||| (cpuRead st 0xFFFF <<< 8) }
      (st, 0)
  | .clc => (setFlag st flagC false, 0)
  | .cld => (setFlag st flagD false, 0)
  | .cli => (setFlag st flagI false, 0)
  | .clv => (setFlag st flagV false, 0)
  | .cmp =>
      let st := fetch st
      let d := sub8 st.a st.fetched
      let st := setFlag st flagC (st.fetched ≤ st.a)
      let st := setFlag st flagZ (d == 0)
      let st := setFlag st flagN (d &&& 0x80 != 0)
      (st, 1)
  | .cpx =>
      let st := fetch st
      let d := sub8 st.x st.fetched
      let st := setFlag st flagC (st.fetched ≤ st.x)
      let st := setFlag st flagZ (d == 0)
      let st := setFlag st flagN (d &&& 0x80 != 0)
      (st, 0)
  | .cpy =>
      let st := fetch st
      let d := sub8 st.y st.fetched
      let st := setFlag st flagC (st.fetched ≤ st.y)
      let st := setFlag st flagZ (d == 0)
      let st := setFlag st flagN (d &&& 0x80 != 0)
      (st, 0)
  | .dec =>
      let st := fetch st
      let temp := sub8 st.fetched 1
      let st := cpuWrite st st.addr_abs temp
      let st := setFlag st flagZ (temp == 0)
      let st := setFlag st flagN (temp &&& 0x80 != 0)
      (st, 0)
  | .dex =>
      let st := { st with x := sub8 st.x 1 }
      let st := setFlag st flagZ (st.x == 0)
      let st := setFlag st flagN (st.x &&& 0x80 != 0)
      (st, 0)
  | .dey =>
      let st := { st with y := sub8 st.y 1 }
      let st := setFlag st flagZ (st.y == 0)
      let st := setFlag st flagN (st.y &&& 0x80 != 0)
      (st, 0)
  | .eor =>
      let st := fetch st
      let st := { st with a := st.a ^^^ st.fetched }
      let st := setFlag st flagZ (st.a == 0)
      let st := setFlag st flagN (st.a &&& 0x80 != 0)
      (st, 1)
  | .inc =>
      let st := fetch st
      let temp := (st.fetched + 1) &&& 0xFF
      let st := cpuWrite st st.addr_abs temp
      let st := setFlag st flagZ (temp == 0)
      let st := setFlag st flagN (temp &&& 0x80 != 0)
      (st, 0)
  | .inx =>
      let st := { st with x := (st.x + 1) &&& 0xFF }
      let st := setFlag st flagZ (st.x == 0)
      let st := setFlag st flagN (st.x &&& 0x80 != 0)
      (st, 0)
  | .iny =>
      let st := { st with y := (st.y + 1) &&& 0xFF }
      let st := setFlag st flagZ (st.y == 0)
      let st := setFlag st flagN (st.y &&& 0x80 != 0)
      (st, 0)
  | .jmp => ({ st with pc := st.addr_abs }, 0)
  | .jsr =>
      let st := pushWord st (st.pc - 1)
      ({ st with pc := st.addr_abs }, 0)
  | .lda =>
      let st := fetch st
      let st := { st with a := st.fetched }
      let st := setFlag st flagZ (st.a == 0)
      let st := setFlag st flagN (st.a &&& 0x80 != 0)
      (st, 1)
  | .ldx =>
      let st := fetch st
      let st := { st with x := st.fetched }
      let st := setFlag st flagZ (st.x == 0)
      let st := setFlag st flagN (st.x &&& 0x80 != 0)
      (st, 1)
  | .ldy =>
      let st := fetch st
      let st := { st with y := st.fetched }
      let st := setFlag st flagZ (st.y == 0)
      let st := setFlag st flagN (st.y &&& 0x80 != 0)
      (st, 1)
  | .lsr =>
      if (lookup st.opcode).1 = .acc then
        let st := setFlag st flagC (st.a &&& 0x01 != 0)
        let st := { st with a := st.a >>> 1 }
        let st := setFlag st flagZ (st.a == 0)
        let st := setFlag st flagN false
        (st, 0)
      else
        let st := fetch st
        let st := setFlag st flagC (st.fetched &&& 0x01 != 0)
        let temp := st.fetched >>> 1
        let st := cpuWrite st st.addr_abs temp
        let st := setFlag st flagZ (temp == 0)
        let st := setFlag st flagN false
        (st, 0)
  | .nop => (st, 0)
  | .ora =>
      let st := fetch st
      let st := { st with a := st.a ||| st.fetched }
      let st := setFlag st flagZ (st.a == 0)
      let st := setFlag st flagN (st.a &&& 0x80 != 0)
      (st, 1)
  | .pha => (pushByte st st.a, 0)
  | .php => (pushByte st (st.status ||| flagB ||| flagU), 0)
  | .pla =>
      let (st, v) := popByte st
      let st := { st with a := v }
      let st := setFlag st flagZ (st.a == 0)
      let st := setFlag st flagN (st.a &&& 0x80 != 0)
      (st, 0)
  | .plp =>
      let (st, v) := popByte st
      let st := { st with status := v }
      let st := setFlag st flagU true
      let st := setFlag st flagB false
      (st, 0)
  | .rol =>
      if (lookup st.opcode).1 = .acc then
        let temp := (st.a <<< 1) ||| (if getFlag st flagC then 1 else 0)
        let st := setFlag st flagC (temp &&& 0x100 != 0)
        let st := { st with a := temp &&& 0xFF }
        let st := setFlag st flagZ (st.a == 0)
        let st := setFlag st flagN (st.a &&& 0x80 != 0)
        (st, 0)
      else
        let st := fetch st
        let temp := (st.fetched <<< 1) ||| (if getFlag st flagC then 1 else 0)
        let st := setFlag st flagC (temp &&& 0x100 != 0)
        let temp := temp &&& 0xFF
        let st := cpuWrite st st.addr_abs temp
        let st := setFlag st flagZ (temp == 0)
        let st := setFlag st flagN (temp &&& 0x80 != 0)
        (st, 0)
  | .ror =>
      if (lookup st.opcode).1 = .acc then
        let temp := st.a ||| (if getFlag st flagC then 0x100 else 0)
        let st := setFlag st flagC (temp &&& 0x01 != 0)
        let st := { st with a := temp >>> 1 }
        let st := setFlag st flagZ (st.a == 0)
        let st := setFlag st flagN (st.a &&& 0x80 != 0)
        (st, 0)
      else
        let st := fetch st
        let temp := st.fetched ||| (if getFlag st flagC then 0x100 else 0)
        let st := setFlag st flagC (temp &&& 0x01 != 0)
        let temp := temp >>> 1
        let st := cpuWrite st st.addr_abs temp
        let st := setFlag st flagZ (temp == 0)
        let st := setFlag st flagN (temp &&& 0x80 != 0)
        (st, 0)
  | .rti =>
      let (st, v) := popByte st
      let st := { st with status := v }
      let st := setFlag st flagU true
      let st := setFlag st flagB false
      let (st, w) := popWord st
      ({ st with pc := w }, 0)
  | .rts =>
      let (st, w) := popWord st
      ({ st with pc := w + 1 }, 0)
  | .sbc =>
      let st := fetch st
      let value := st.fetched ^^^ 0xFF
      let temp := st.a + value + (if getFlag st flagC then 1 else 0)
      let st := setFlag st flagC (temp > 255)
      let st := setFlag st flagZ (temp &&& 0xFF == 0)
      let st := setFlag st flagV (((temp ^^^ st.a) &&& (temp ^^^ value) &&& 0x80) != 0)
      let st := setFlag st flagN (temp &&& 0x80 != 0)
      ({ st with a := temp &&& 0xFF }, 1)
  | .sec => (setFlag st flagC true, 0)
  | .sed => (setFlag st flagD true, 0)
  | .sei => (setFlag st flagI true, 0)
  | .sta => (cpuWrite st st.addr_abs st.a, 0)
  | .stx => (cpuWrite st st.addr_abs st.x, 0)
  | .sty => (cpuWrite st st.addr_abs st.y, 0)
  | .tax =>
      let st := { st with x := st.a }
      let st := setFlag st flagZ (st.x == 0)
      let st := setFlag st flagN (st.x &&& 0x80 != 0)
      (st, 0)
  | .tay =>
      let st := { st with y := st.a }
      let st := setFlag st flagZ (st.y == 0)
      let st := setFlag st flagN (st.y &&& 0x80 != 0)
      (st, 0)
  | .tsx =>
      let st := { st with x := st.stkp }
      let st := setFlag st flagZ (st.x == 0)
      let st := setFlag st flagN (st.x &&& 0x80 != 0)
      (st, 0)
  | .txa =>
      let st := { st with a := st.x }
      let st := setFlag st flagZ (st.a == 0)
      let st := setFlag st flagN (st.a &&& 0x80 != 0)
      (st, 0)
  | .txs => ({ st with stkp := st.x }, 0)
  | .tya =>
      let st := { st with a := st.y }
      let st := setFlag st flagZ (st.a == 0)
      let st := setFlag st flagN (st.a &&& 0x80 != 0)
      (st, 0)

/-- `CPU6502.clock`: when the cycle counter is zero, fetch the opcode
(this is the ONE place the source masks `pc` to 16 bits), dispatch, run
the addressing mode then the operation, add the bitwise AND of their
extra-cycle indicators, and finally decrement the counter. -/
def clock (st : CpuState) : CpuState :=
  if st.cycles = 0 then
    let opcode := cpuRead st st.pc
    let st1 := { st with opcode := opcode, pc := (st.pc + 1) &&& 0xFFFF }
    let entry := lookup opcode
    let st2 := { st1 with cycles := entry.2.2 }
    let (st3, add1) := runMode entry.1 st2
    let (st4, add2) := runOp entry.2.1 st3
    let st5 := { st4 with cycles := st4.cycles + (add1 &&& add2) }
    { st5 with cycles := st5.cycles - 1 }
  else
    { st with cycles := st.cycles - 1 }

end Emunes

namespace Emunes

/-! ## PPU-space bus decoding of EMUNES5.23.251.0A.py -/

/-- Pointwise update of a byte store. -/
def updFn (f : Nat → Nat) (i v : Nat) : Nat → Nat :=
  fun j => if j = i then v else f j

/-- The state reachable from the PPU side of `Bus`: the cartridge CHR
data of `NESRom` (`chr_rom` with its size, or `chr_ram` when the size is
zero), the cartridge's `mirror_mode`, the PPU's 2KB `vram` and 32-byte
`palette_ram`.  Byte buffers are functions from index to byte. -/
structure PpuBus where
  chr_rom_size : Nat
  chr_rom : Nat → Nat
  chr_ram : Nat → Nat
  mirror_mode : Nat
  vram : Nat → Nat
  palette_ram : Nat → Nat

/-- `NESRom.read_chr`: CHR-ROM indexed by `addr & (size-1)` when present,
otherwise CHR-RAM indexed by `addr & 0x1FFF`. -/
def romReadChr (b : PpuBus) (addr : Nat) : Nat :=
  if b.chr_rom_size > 0 then b.chr_rom (addr &&& (b.chr_rom_size - 1))
  else b.chr_ram (addr &&& 0x1FFF)

/-- `NESRom.write_chr`: stores only when CHR-RAM is allocated, i.e. when
`chr_rom_size = 0` (`chr_ram is not None`). -/
def romWriteChr (b : PpuBus) (addr data : Nat) : PpuBus :=
  if b.chr_rom_size = 0 then { b with chr_ram := updFn b.chr_ram (addr &&& 0x1FFF) data }
  else b

/-- Nametable mirroring of `Bus.ppu_read`/`ppu_write`: horizontal when
`mirror_mode = 0`, vertical otherwise. -/
def mirrorAddr (mode addr : Nat) : Nat :=
  if mode = 0 then ((addr &&& 0x0800) >>> 1) ||| (addr &&& 0x03FF)
  else addr &&& 0x07FF

/-- Palette index remapping of `Bus.ppu_read`/`ppu_write`: mask to 5 bits,
then redirect 0x10/0x14/0x18/0x1C to 0x00/0x04/0x08/0x0C. -/
def paletteIndex (addr : Nat) : Nat :=
  let p := addr &&& 0x1F
  if p = 0x10 then 0x00
  else if p = 0x14 then 0x04
  else if p = 0x18 then 0x08
  else if p = 0x1C then 0x0C
  else p

/-- `Bus.ppu_read`: mask to 14 bits; the cartridge serves 0x0000-0x1FFF
(`Cartridge.ppu_read`), nametables serve 0x2000-0x3EFF through mirroring,
palette RAM serves 0x3F00-0x3FFF through `paletteIndex`, masked `& 0x3F`. -/
def busPpuRead (b : PpuBus) (addr0 : Nat) : Nat :=
  let addr := addr0 &&& 0x3FFF
  if addr ≤ 0x1FFF then romReadChr b addr
  else if addr ≤ 0x3EFF then b.vram (mirrorAddr b.mirror_mode addr)
  else if 0x3F00 ≤ addr then b.palette_ram (paletteIndex addr) &&& 0x3F
  else 0

/-- `Bus.ppu_write`: same decoding as `busPpuRead`; the cartridge claims
0x0000-0x1FFF (`Cartridge.ppu_write` returns True there), palette stores
the byte masked `& 0x3F` at the remapped index. -/
def busPpuWrite (b : PpuBus) (addr0 data : Nat) : PpuBus :=
  let addr := addr0 &&& 0x3FFF
  if addr ≤ 0x1FFF then romWriteChr b addr data
  else if addr ≤ 0x3EFF then
    { b with vram := updFn b.vram (mirrorAddr b.mirror_mode addr) data }
  else if 0x3F00 ≤ addr then
    { b with palette_ram := updFn b.palette_ram (paletteIndex addr) (data &&& 0x3F) }
  else b

/-! ## PPU register file of EMUNES5.23.251.0A.py -/

/-- The fields of `PPU2C02` touched by its CPU-facing register interface
(`cpu_read`/`cpu_write`): control/mask/status registers, OAM address and
bytes, the internal `v`/`t`/fine-x/write-toggle scroll state and the
PPUDATA read buffer.  The rendering pipeline state (shifters, screen) is
not referenced by these two methods. -/
structure Ppu where
  ppuctrl : Nat
  ppumask : Nat
  ppustatus : Nat
  oamaddr : Nat
  v : Nat
  t : Nat
  x : Nat
  w : Nat
  ppudata_buffer : Nat
  oam : Nat → Nat

/-- `PPU2C02.cpu_read` (ports already mirrored to 0x2000-0x2007 by the
bus): 0x2002 returns status bits 5-7 over stale buffer bits, clearing
VBlank and the write toggle; 0x2004 returns the OAM byte; 0x2007 returns
the buffered byte — or the fresh byte when `v >= 0x3F00` — refills the
buffer from `v`, and increments `v` by 1 or 32, masked to 14 bits.
The result is the returned data together with the new register state. -/
def ppuCpuRead (p : Ppu) (b : PpuBus) (addr : Nat) : Nat × Ppu :=
  if addr = 0x2002 then
    ((p.ppustatus &&& 0xE0) ||| (p.ppudata_buffer &&& 0x1F),
     { p with ppustatus := p.ppustatus - (p.ppustatus &&& 0x80), w := 0 })
  else if addr = 0x2004 then
    (p.oam p.oamaddr, p)
  else if addr = 0x2007 then
    let buf := busPpuRead b p.v
    let data := if p.v ≥ 0x3F00 then buf else p.ppudata_buffer
    let v2 := (p.v + (if p.ppuctrl &&& 0x04 != 0 then 32 else 1)) &&& 0x3FFF
    (data, { p with ppudata_buffer := buf, v := v2 })
  else
    (0, p)

/-- `PPU2C02.cpu_write`: the eight ports, including the two-write PPUADDR
sequence through the shared toggle `w`, and the PPUDATA write that goes
to the PPU bus and increments `v`. -/
def ppuCpuWrite (p : Ppu) (b : PpuBus) (addr data : Nat) : Ppu × PpuBus :=
  if addr = 0x2000 then
    ({ p with ppuctrl := data,
              t := (p.t &&& 0xF3FF) ||| ((data &&& 0x03) <<< 10) }, b)
  else if addr = 0x2001 then
    ({ p with ppumask := data }, b)
  else if addr = 0x2003 then
    ({ p with oamaddr := data }, b)
  else if addr = 0x2004 then
    ({ p with oam := updFn p.oam p.oamaddr data,
              oamaddr := (p.oamaddr + 1) &&& 0xFF }, b)
  else if addr = 0x2005 then
    (if p.w = 0 then
      { p with t := (p.t &&& 0xFFE0) ||| (data >>> 3), x := data &&& 0x07, w := 1 }
    else
      let t1 := (p.t &&& 0x8FFF) ||| ((data &&& 0x07) <<< 12)
      { p with t := (t1 &&& 0xFC1F) ||| ((data &&& 0xF8) <<< 2), w := 0 }, b)
  else if addr = 0x2006 then
    (if p.w = 0 then
      { p with t := (p.t &&& 0x80FF) ||| ((data &&& 0x3F) <<< 8), w := 1 }
    else
      let t1 := (p.t &&& 0xFF00) ||| data
      { p with t := t1, v := t1, w := 0 }, b)
  else if addr = 0x2007 then
    let b2 := busPpuWrite b p.v data
    ({ p with v := (p.v + (if p.ppuctrl &&& 0x04 != 0 then 32 else 1)) &&& 0x3FFF }, b2)
  else
    (p, b)

/-! ## Frame counter state machine of EMUNES5.23.251.0A.py PPU2C02.clock

Scanning `PPU2C02.clock`, the fields `scanline`, `cycle`, `f` and
`frame_complete` are assigned only at: the cycle-0 skip on scanline 0,
the odd-frame skip at (261, 339), and the counter-advance tail.  The
rendering body manipulates shifters, `v` and the screen but never these
counters, so their evolution is the projection below; `raised` counts
the executions of `frame_complete = True`. -/

/-- Scanline/cycle/odd-frame counters of `PPU2C02`, with `raised` counting
how often the tick set `frame_complete`. -/
structure FrameState where
  scanline : Nat
  cycle : Nat
  f : Nat
  raised : Nat
deriving DecidableEq, Repr

/-- One `PPU2C02.clock` call of EMUNES5.23.251.0A.py, restricted to the
counter fields: visible scanline 0 forces `cycle = 1` when the cycle is 0
("skip cycle 0"); the pre-render scanline jumps cycle 339 to 340 on odd
frames; then the tail advances and wraps the counters. -/
def ppuTick (s : FrameState) : FrameState :=
  let s :=
    if s.scanline ≤ 239 then
      if s.scanline = 0 ∧ s.cycle = 0 then { s with cycle := 1 } else s
    else if s.scanline = 261 then
      if s.cycle = 339 ∧ s.f ≠ 0 then { s with cycle := 340 } else s
    else s
  let c := s.cycle + 1
  if c > 340 then
    let sl := s.scanline + 1
    if sl > 261 then
      { s with cycle := 0, scanline := 0, raised := s.raised + 1, f := s.f ^^^ 1 }
    else
      { s with cycle := 0, scanline := sl }
  else
    { s with cycle := c }

/-- Iterate `ppuTick`. -/
def runPpu : Nat → FrameState → FrameState
  | 0, s => s
  | n + 1, s => runPpu n (ppuTick s)

/-! ## iNES loader of EMUNES5.23.251.0A.py -/

/-- The ways `NESRom.__init__` can raise: the explicit `ValueError` on a
bad magic, or the `IndexError` Python raises when the buffer is too short
to index `header[4..7]`. -/
inductive RomErr
  | invalidHeader
  | indexError
deriving DecidableEq, Repr

/-- The fields `NESRom.__init__` computes. -/
structure EmuRom where
  prg_rom_size : Nat
  chr_rom_size : Nat
  mapper : Nat
  mirror_mode : Nat
  battery_backed : Bool
  trainer_present : Bool
  prg_rom : List Nat
  chr_rom : List Nat
  chr_ram_allocated : Bool
deriving DecidableEq, Repr

/-- `NESRom.__init__` on a byte buffer.  The magic check compares the
first four bytes; buffers long enough to pass it but shorter than 8 bytes
raise `IndexError` at `header[4]`…`header[7]` (modelled as one check —
the guard makes the later `getD` defaults unreachable).  The PRG and CHR
byte ranges are Python slices, which CLIP to the buffer: a buffer shorter
than the declared sizes yields short (possibly empty) slices, and no
error is raised. -/
def loadRom (data : List Nat) : Except RomErr EmuRom :=
  let header := data.take 16
  if header.take 4 ≠ [0x4E, 0x45, 0x53, 0x1A] then .error .invalidHeader
  else if header.length < 8 then .error .indexError
  else
    let prg_rom_size := header.getD 4 0 * 16384
    let chr_rom_size := header.getD 5 0 * 8192
    let flags6 := header.getD 6 0
    let flags7 := header.getD 7 0
    let trainer := flags6 &&& 0x04 != 0
    let prg_rom_start := 16 + (if trainer then 512 else 0)
    .ok { prg_rom_size := prg_rom_size
          chr_rom_size := chr_rom_size
          mapper := ((flags7 &&& 0xF0) >>> 4) ||| (flags6 &&& 0xF0)
          mirror_mode := flags6 &&& 0x01
          battery_backed := flags6 &&& 0x02 != 0
          trainer_present := trainer
          prg_rom := (data.drop prg_rom_start).take prg_rom_size
          chr_rom := (data.drop (prg_rom_start + prg_rom_size)).take chr_rom_size
          chr_ram_allocated := chr_rom_size = 0 }

end Emunes

namespace Monika

/-! ## MonikaNES.py: frame counters, palette bus, branch and reset -/

/-- Scanline/cycle counters of MonikaNES.py's `PPU2C02`, with `raised`
counting the executions of `frame_complete = True`.  Scanning its
`clock`, these fields are assigned only in the counter-advance tail. -/
structure FrameState where
  scanline : Nat
  cycle : Nat
  raised : Nat
deriving DecidableEq, Repr

/-- One `PPU2C02.clock` call of MonikaNES.py restricted to the counters:
`cycle += 1`; above 340 move to the next scanline; above scanline 261
wrap to 0 and signal `frame_complete`. -/
def ppuTick (s : FrameState) : FrameState :=
  let c := s.cycle + 1
  if c > 340 then
    let sl := s.scanline + 1
    if sl > 261 then { s with cycle := 0, scanline := 0, raised := s.raised + 1 }
    else { s with cycle := 0, scanline := sl }
  else
    { s with cycle := c }

/-- Iterate MonikaNES.py's `ppuTick`. -/
def runPpu : Nat → FrameState → FrameState
  | 0, s => s
  | n + 1, s => runPpu n (ppuTick s)

/-- PPU-space state of MonikaNES.py's `Bus`: cartridge CHR, the 4KB-indexed
`vram` and the 32-byte `palette_ram`. -/
structure PpuBus where
  chr_rom_size : Nat
  chr_rom : Nat → Nat
  chr_ram : Nat → Nat
  vram : Nat → Nat
  palette_ram : Nat → Nat
deriving Inhabited

/-- MonikaNES.py `NESRom.read_chr`: CHR-ROM directly at `addr`, CHR-RAM
otherwise. -/
def romReadChr (b : PpuBus) (addr : Nat) : Nat :=
  if b.chr_rom_size > 0 then b.chr_rom addr else b.chr_ram addr

/-- Palette index remapping of MonikaNES.py's `Bus.ppu_read`/`ppu_write`:
mask to 5 bits, then redirect ALL of 0x04/0x08/0x0C/0x10/0x14/0x18/0x1C
to 0x00 (its comment calls them all mirrors of the universal background). -/
def paletteIndex (addr : Nat) : Nat :=
  let p := addr &&& 0x1F
  if p = 0x04 ∨ p = 0x08 ∨ p = 0x0C ∨ p = 0x10 ∨ p = 0x14 ∨ p = 0x18 ∨ p = 0x1C then 0x00
  else p

/-- MonikaNES.py `Bus.ppu_write`: the cartridge stores CHR for
0x0000-0x1FFF (`write_chr` touches CHR-RAM only), nametable writes go to
`vram[addr & 0x0FFF]`, palette writes store `data & 0x3F` at the remapped
index. -/
def busPpuWrite (b : PpuBus) (addr data : Nat) : PpuBus :=
  if addr ≤ 0x1FFF then
    if b.chr_rom_size = 0 then { b with chr_ram := Emunes.updFn b.chr_ram addr data } else b
  else if 0x2000 ≤ addr ∧ addr ≤ 0x3EFF then
    { b with vram := Emunes.updFn b.vram (addr &&& 0x0FFF) data }
  else if 0x3F00 ≤ addr ∧ addr ≤ 0x3FFF then
    { b with palette_ram := Emunes.updFn b.palette_ram (paletteIndex addr) (data &&& 0x3F) }
  else b

/-- MonikaNES.py `Bus.ppu_read`: the cartridge serves 0x0000-0x1FFF,
nametables serve via `addr & 0x0FFF`, the palette serves the remapped
entry masked `& 0x3F`; anything else reads 0. -/
def busPpuRead (b : PpuBus) (addr : Nat) : Nat :=
  if addr ≤ 0x1FFF then romReadChr b addr
  else if 0x2000 ≤ addr ∧ addr ≤ 0x3EFF then b.vram (addr &&& 0x0FFF)
  else if 0x3F00 ≤ addr ∧ addr ≤ 0x3FFF then b.palette_ram (paletteIndex addr) &&& 0x3F
  else 0

/-- The fields of MonikaNES.py's `CPU6502` that its `branch` helper
touches. -/
structure BranchState where
  pc : Nat
  addr_rel : Nat
  addr_abs : Nat
  cycles : Nat
deriving DecidableEq, Repr

/-- MonikaNES.py `CPU6502.branch`: on a taken branch add one cycle, and
add TWO further cycles when the page differs (its comment announces "add
another cycle", i.e. one). -/
def branch (condition : Bool) (s : BranchState) : BranchState :=
  if condition then
    let s1 := { s with cycles := s.cycles + 1 }
    let s2 := { s1 with addr_abs := s1.pc + s1.addr_rel }
    let s3 :=
      if s2.addr_abs &&& 0xFF00 != s2.pc &&& 0xFF00 then
        { s2 with cycles := s2.cycles + 2 }
      else s2
    { s3 with pc := s3.addr_abs }
  else s

/-- The fields of MonikaNES.py's `CPU6502` that `reset` touches, plus the
bus memory (MonikaNES's `Bus.cpu_read` does not mask the address, so the
memory is read at the raw address). -/
structure CpuState where
  a : Nat
  x : Nat
  y : Nat
  stkp : Nat
  pc : Nat
  status : Nat
  fetched : Nat
  addr_abs : Nat
  addr_rel : Nat
  cycles : Nat
  mem : Nat → Nat

/-- MonikaNES.py `CPU6502.reset`: read the vector at 0xFFFC/0xFFFD into
`pc`, zero the registers, `stkp = 0xFD`, `status = U | I`, clear the
internals and load `cycles = 8` ("Reset takes 8 cycles").  The
diagnostic `illegal_opcodes` set it also clears is not modelled. -/
def reset (st : CpuState) : CpuState :=
  let lo := st.mem 0xFFFC
  let hi := st.mem 0xFFFD
  { st with pc := (hi <<< 8) ||| lo, a := 0x00, x := 0x00, y := 0x00,
            stkp := 0xFD, status := 0x00 ||| 0x20 ||| 0x04,
            addr_rel := 0x0000, addr_abs := 0x0000, fetched := 0x00,
            cycles := 8 }

end Monika

namespace Catnes

/-! ## CATNES5.23.251.0AA.py: Cartridge construction and NROM decoding -/

/-- The `NESRom` fields `Cartridge` consumes (byte buffers as functions
with explicit lengths). -/
structure NESRom where
  prg_rom_len : Nat
  prg_rom : Nat → Nat
  chr_rom_len : Nat
  chr_rom : Nat → Nat
  mapper_id : Nat
  mirroring : Nat

/-- `Cartridge.__init__`'s state. -/
structure Cartridge where
  rom : NESRom
  prg_ram : Nat → Nat
  prg_banks : Nat
  chr_banks : Nat

/-- `Cartridge.__init__` of CATNES5.23.251.0AA.py.  When `mapper_id ≠ 0`
the source only PRINTS a warning ("Trying to run as NROM") and falls
through to the NROM bank computation: there is no error path, so the
constructor is total. -/
def mkCartridge (rom : NESRom) : Cartridge :=
  { rom := rom
    prg_ram := fun _ => 0
    prg_banks := rom.prg_rom_len / 16384
    chr_banks := rom.chr_rom_len / 8192 }

/-- `Cartridge.cpu_read`: PRG-RAM at 0x6000-0x7FFF, NROM-decoded PRG-ROM
at 0x8000-0xFFFF (16KB images mirrored through `& 0x3FFF`), 0 elsewhere —
applied regardless of the header's mapper id. -/
def cpuRead (c : Cartridge) (addr : Nat) : Nat :=
  if 0x6000 ≤ addr ∧ addr ≤ 0x7FFF then c.prg_ram (addr - 0x6000)
  else if 0x8000 ≤ addr ∧ addr ≤ 0xFFFF then
    if c.prg_banks = 1 then c.rom.prg_rom ((addr - 0x8000) &&& 0x3FFF)
    else c.rom.prg_rom (addr - 0x8000)
  else 0

end Catnes

namespace Emunes

/-! ## Statement helpers and concrete fixtures -/

/-- The eight relative-branch opcodes of the dispatch table. -/
def branchOpcodes : List Nat := [0x10, 0x30, 0x50, 0x70, 0x90, 0xB0, 0xD0, 0xF0]

/-- The branch condition each branch opcode tests, read off the dispatch
table together with the `BPL` … `BEQ` methods. -/
def branchCond (opcode : Nat) (st : CpuState) : Bool :=
  match opcode with
  | 0x10 => !getFlag st flagN
  | 0x30 => getFlag st flagN
  | 0x50 => !getFlag st flagV
  | 0x70 => getFlag st flagV
  | 0x90 => !getFlag st flagC
  | 0xB0 => getFlag st flagC
  | 0xD0 => !getFlag st flagZ
  | 0xF0 => getFlag st flagZ
  | _ => false

/-- Sign extension of a relative-offset byte, as the `REL` mode performs
it (`addr_rel |= 0xFF00` when bit 7 is set). -/
def sext8 (r : Nat) : Nat :=
  if r &&& 0x80 != 0 then r ||| 0xFF00 else r

/-- The power-on register file of `CPU6502.__init__` over a given bus
memory: `stkp = 0xFD`, `pc = 0`, `status = 0x24`, zero elsewhere. -/
def cpuInit (m : Nat → Nat) : CpuState :=
  { a := 0x00, x := 0x00, y := 0x00, stkp := 0xFD, pc := 0x0000, status := 0x24,
    fetched := 0x00, addr_abs := 0x0000, addr_rel := 0x00, opcode := 0x00,
    cycles := 0, mem := m }

/-- Bus memory holding the reset vector 0x00/0x80 at 0xFFFC/0xFFFD. -/
def resetMem : Nat → Nat :=
  fun a => if a = 0xFFFC then 0x00 else if a = 0xFFFD then 0x80 else 0

/-- Bus memory holding `ADC #$50` at 0x8000. -/
def adcMem : Nat → Nat :=
  fun a => if a = 0x8000 then 0x69 else if a = 0x8001 then 0x50 else 0

/-- CPU about to execute `ADC #$50` with `A = 0x50` and carry clear. -/
def adcState : CpuState :=
  { cpuInit adcMem with pc := 0x8000, a := 0x50 }

/-- Bus memory holding opcode 0xAD (`LDA abs`) at 0xFFFE. -/
def wrapMem : Nat → Nat :=
  fun a => if a = 0xFFFE then 0xAD else 0

/-- CPU about to fetch the `LDA abs` opcode at 0xFFFE, so that the two
operand fetches push the unmasked `pc` past 0xFFFF. -/
def wrapState : CpuState :=
  { cpuInit wrapMem with pc := 0xFFFE }

/-- Bus memory holding `BCC +0x20` at 0x80F0: taken from there, the
target 0x8112 is on a different page than the incremented PC 0x80F2. -/
def branchMemFar : Nat → Nat :=
  fun a => if a = 0x80F0 then 0x90 else if a = 0x80F1 then 0x20 else 0

/-- CPU about to execute the page-crossing `BCC` (carry clear, so it is
taken). -/
def branchStateFar : CpuState :=
  { cpuInit branchMemFar with pc := 0x80F0 }

/-- The same `BCC` but with the carry set, so the branch is not taken. -/
def branchStateUntaken : CpuState :=
  { cpuInit branchMemFar with pc := 0x80F0, status := 0x25 }

/-- Bus memory holding `BCC +0x10` at 0x8010: taken from there, the
target 0x8022 stays on the page of the incremented PC 0x8012. -/
def branchMemNear : Nat → Nat :=
  fun a => if a = 0x8010 then 0x90 else if a = 0x8011 then 0x10 else 0

/-- CPU about to execute the same-page `BCC` (carry clear). -/
def branchStateNear : CpuState :=
  { cpuInit branchMemNear with pc := 0x8010 }

/-- The power-on register file of `PPU2C02.__init__`: all registers,
scroll state and the read buffer zero, OAM zeroed. -/
def ppuInit : Ppu :=
  { ppuctrl := 0, ppumask := 0, ppustatus := 0, oamaddr := 0,
    v := 0, t := 0, x := 0, w := 0, ppudata_buffer := 0, oam := fun _ => 0 }

/-- A fresh PPU-side bus: 8KB CHR-ROM of zeros, zeroed VRAM and palette,
horizontal mirroring. -/
def ppuBus0 : PpuBus :=
  { chr_rom_size := 8192, chr_rom := fun _ => 0, chr_ram := fun _ => 0,
    mirror_mode := 0, vram := fun _ => 0, palette_ram := fun _ => 0 }

/-- The ordered alias pairs of the 32-byte palette: each mirror entry with
its partner, in both directions. -/
def aliasPairs : List (Nat × Nat) :=
  [(0x10, 0x00), (0x00, 0x10), (0x14, 0x04), (0x04, 0x14),
   (0x18, 0x08), (0x08, 0x18), (0x1C, 0x0C), (0x0C, 0x1C)]

/-- Fold a list of PPU-space writes over the bus. -/
def applyPpuWrites (ws : List (Nat × Nat)) (b : PpuBus) : PpuBus :=
  ws.foldl (fun acc w => busPpuWrite acc w.1 w.2) b

/-- A 10-byte file with a valid magic that declares one 16KB PRG page:
the declared sizes exceed the file length. -/
def tenByteFile : List Nat :=
  [0x4E, 0x45, 0x53, 0x1A, 0x01, 0x00, 0x00, 0x00, 0x00, 0x00]

end Emunes

namespace Monika

/-- A fresh MonikaNES PPU-side bus: 8KB CHR-ROM of zeros, zeroed VRAM and
palette. -/
def ppuBus0 : PpuBus :=
  { chr_rom_size := 8192, chr_rom := fun _ => 0, chr_ram := fun _ => 0,
    vram := fun _ => 0, palette_ram := fun _ => 0 }

/-- Fold a list of PPU-space writes over MonikaNES's bus. -/
def applyPpuWrites (ws : List (Nat × Nat)) (b : PpuBus) : PpuBus :=
  ws.foldl (fun acc w => busPpuWrite acc w.1 w.2) b

/-- MonikaNES `branch` state right after the `REL` operand fetch of a
branch at 0x80F0 with offset +0x20 and the base 2 cycles loaded: the
target 0x8112 crosses the page of the incremented PC 0x80F2. -/
def branchState0 : BranchState :=
  { pc := 0x80F2, addr_rel := 0x20, addr_abs := 0, cycles := 2 }

end Monika

namespace Catnes

/-- A parsed 16KB-PRG, 8KB-CHR ROM image whose header declares MAPPER 1
(not NROM). -/
def testRom : NESRom :=
  { prg_rom_len := 16384, prg_rom := fun i => (i + 7) % 256,
    chr_rom_len := 8192, chr_rom := fun _ => 0,
    mapper_id := 1, mirroring := 0 }

end Catnes


namespace Emunes

/-- A fresh PPU whose VRAM address sits in the palette range. -/
def ppuAtPalette : Ppu :=
  { ppuInit with v := 0x3F00 }

end Emunes

/-! ## Supporting lemmas: iterated PPU counter machines -/

/-- Splitting an iteration of MonikaNES's counter machine. -/
theorem monika_runPpu_add (m n : Nat) (s : Monika.FrameState) :
    Monika.runPpu (m + n) s = Monika.runPpu n (Monika.runPpu m s) := by
  induction m generalizing s with
  | zero => rw [Nat.zero_add]; rfl
  | succ k ih =>
      have h : k + 1 + n = (k + n) + 1 := by omega
      rw [h]
      show Monika.runPpu (k + n) (Monika.ppuTick s) = _
      rw [ih]
      rfl

/-- A MonikaNES tick below the scanline boundary just advances the cycle. -/
theorem monika_tick_mid (sl c r : Nat) (h : c ≤ 339) :
    Monika.ppuTick ⟨sl, c, r⟩ = ⟨sl, c + 1, r⟩ := by
  simp only [Monika.ppuTick]
  split_ifs <;> (try dsimp only at *) <;> first | rfl | (exfalso; omega)

/-- A MonikaNES tick at cycle 340 of a scanline below 261 moves to the
next scanline. -/
theorem monika_tick_wrap (sl r : Nat) (h : sl ≤ 260) :
    Monika.ppuTick ⟨sl, 340, r⟩ = ⟨sl + 1, 0, r⟩ := by
  simp only [Monika.ppuTick]
  split_ifs <;> (try dsimp only at *) <;> first | rfl | (exfalso; omega)

/-- Within a MonikaNES scanline, `k` ticks advance the cycle by `k`. -/
theorem monika_run_mid (k : Nat) (sl c r : Nat) (h : c + k ≤ 340) :
    Monika.runPpu k ⟨sl, c, r⟩ = ⟨sl, c + k, r⟩ := by
  induction k generalizing c with
  | zero => rfl
  | succ j ih =>
      show Monika.runPpu j (Monika.ppuTick ⟨sl, c, r⟩) = _
      rw [monika_tick_mid sl c r (by omega), ih (c + 1) (by omega)]
      congr 1
      omega

/-- One full MonikaNES scanline below 261 takes 341 ticks. -/
theorem monika_run_scanline (sl r : Nat) (h : sl ≤ 260) :
    Monika.runPpu 341 ⟨sl, 0, r⟩ = ⟨sl + 1, 0, r⟩ := by
  have h340 : Monika.runPpu 340 ⟨sl, 0, r⟩ = ⟨sl, 340, r⟩ := by
    simpa using monika_run_mid 340 sl 0 r (by omega)
  have hs : (341 : Nat) = 340 + 1 := by omega
  rw [hs, monika_runPpu_add, h340]
  show Monika.ppuTick ⟨sl, 340, r⟩ = _
  exact monika_tick_wrap sl r h

/-- Stacked MonikaNES scanlines: `341 * n` ticks from the frame origin
reach scanline `n`. -/
theorem monika_run_scanlines (n r : Nat) (h : n ≤ 261) :
    Monika.runPpu (341 * n) ⟨0, 0, r⟩ = ⟨n, 0, r⟩ := by
  induction n with
  | zero => rfl
  | succ j ih =>
      have hm : 341 * (j + 1) = 341 * j + 341 := by ring
      rw [hm, monika_runPpu_add, ih (by omega)]
      exact monika_run_scanline j r (by omega)

/-- Splitting an iteration of the EMUNES counter machine. -/
theorem emunes_runPpu_add (m n : Nat) (s : Emunes.FrameState) :
    Emunes.runPpu (m + n) s = Emunes.runPpu n (Emunes.runPpu m s) := by
  induction m generalizing s with
  | zero => rw [Nat.zero_add]; rfl
  | succ k ih =>
      have h : k + 1 + n = (k + n) + 1 := by omega
      rw [h]
      show Emunes.runPpu (k + n) (Emunes.ppuTick s) = _
      rw [ih]
      rfl

/-- The EMUNES tick at the frame origin skips cycle 0 of scanline 0 and
lands on cycle 2. -/
theorem emunes_tick_origin (f r : Nat) :
    Emunes.ppuTick ⟨0, 0, f, r⟩ = ⟨0, 2, f, r⟩ := by
  rfl

/-- An EMUNES tick on scanline 0 at a nonzero cycle below 340 advances
the cycle. -/
theorem emunes_tick_vis0 (c f r : Nat) (h1 : 1 ≤ c) (h2 : c ≤ 339) :
    Emunes.ppuTick ⟨0, c, f, r⟩ = ⟨0, c + 1, f, r⟩ := by
  simp only [Emunes.ppuTick]
  split_ifs <;> (try dsimp only at *) <;> first | rfl | (exfalso; omega)

/-- An EMUNES tick on scanlines 1-260 below cycle 340 advances the cycle. -/
theorem emunes_tick_mid (sl c f r : Nat) (h0 : 1 ≤ sl) (h1 : sl ≤ 260) (h2 : c ≤ 339) :
    Emunes.ppuTick ⟨sl, c, f, r⟩ = ⟨sl, c + 1, f, r⟩ := by
  simp only [Emunes.ppuTick]
  split_ifs <;> (try dsimp only at *) <;> first | rfl | (exfalso; omega)

/-- An EMUNES tick at cycle 340 of a scanline below 261 moves to the next
scanline (the scanline-0 skip does not fire at a nonzero cycle). -/
theorem emunes_tick_wrap (sl f r : Nat) (h : sl ≤ 260) :
    Emunes.ppuTick ⟨sl, 340, f, r⟩ = ⟨sl + 1, 0, f, r⟩ := by
  simp only [Emunes.ppuTick]
  split_ifs <;> (try dsimp only at *) <;> first | rfl | (exfalso; omega) | simp_all

/-- An EMUNES tick on the pre-render scanline with an even frame parity
and cycle below 340 advances the cycle. -/
theorem emunes_tick_261 (c r : Nat) (h : c ≤ 339) :
    Emunes.ppuTick ⟨261, c, 0, r⟩ = ⟨261, c + 1, 0, r⟩ := by
  simp only [Emunes.ppuTick]
  split_ifs <;> (try dsimp only at *) <;> first | rfl | (exfalso; omega)

/-- The EMUNES frame wrap: cycle 340 of the pre-render scanline returns
to the origin, raises `frame_complete` and toggles the parity bit. -/
theorem emunes_tick_261_wrap (r : Nat) :
    Emunes.ppuTick ⟨261, 340, 0, r⟩ = ⟨0, 0, 1, r + 1⟩ := by
  simp only [Emunes.ppuTick]
  norm_num

/-- Within scanline 0 (cycles 1-340), `k` EMUNES ticks advance the cycle
by `k`. -/
theorem emunes_run_vis0 (k c f r : Nat) (h1 : 1 ≤ c) (h : c + k ≤ 340) :
    Emunes.runPpu k ⟨0, c, f, r⟩ = ⟨0, c + k, f, r⟩ := by
  induction k generalizing c with
  | zero => rfl
  | succ j ih =>
      show Emunes.runPpu j (Emunes.ppuTick ⟨0, c, f, r⟩) = _
      rw [emunes_tick_vis0 c f r h1 (by omega), ih (c + 1) (by omega) (by omega)]
      congr 1
      omega

/-- Within a scanline among 1-260, `k` EMUNES ticks advance the cycle by
`k`. -/
theorem emunes_run_mid (k sl c f r : Nat) (h0 : 1 ≤ sl) (h1 : sl ≤ 260) (h : c + k ≤ 340) :
    Emunes.runPpu k ⟨sl, c, f, r⟩ = ⟨sl, c + k, f, r⟩ := by
  induction k generalizing c with
  | zero => rfl
  | succ j ih =>
      show Emunes.runPpu j (Emunes.ppuTick ⟨sl, c, f, r⟩) = _
      rw [emunes_tick_mid sl c f r h0 h1 (by omega), ih (c + 1) (by omega)]
      congr 1
      omega

/-- Within the pre-render scanline at even parity, `k` EMUNES ticks
advance the cycle by `k`. -/
theorem emunes_run_261 (k c r : Nat) (h : c + k ≤ 340) :
    Emunes.runPpu k ⟨261, c, 0, r⟩ = ⟨261, c + k, 0, r⟩ := by
  induction k generalizing c with
  | zero => rfl
  | succ j ih =>
      show Emunes.runPpu j (Emunes.ppuTick ⟨261, c, 0, r⟩) = _
      rw [emunes_tick_261 c r (by omega), ih (c + 1) (by omega)]
      congr 1
      omega

/-- Scanline 0 of an EMUNES frame lasts only 340 ticks because of the
cycle-0 skip. -/
theorem emunes_run_scan0 (f r : Nat) :
    Emunes.runPpu 340 ⟨0, 0, f, r⟩ = ⟨1, 0, f, r⟩ := by
  have h1 : (340 : Nat) = 1 + (338 + 1) := by omega
  rw [h1, emunes_runPpu_add]
  have h2 : Emunes.runPpu 1 ⟨0, 0, f, r⟩ = ⟨0, 2, f, r⟩ := by
    show Emunes.ppuTick ⟨0, 0, f, r⟩ = _
    exact emunes_tick_origin f r
  rw [h2, emunes_runPpu_add]
  have h4 : Emunes.runPpu 338 ⟨0, 2, f, r⟩ = ⟨0, 340, f, r⟩ := by
    simpa using emunes_run_vis0 338 2 f r (by omega) (by omega)
  rw [h4]
  show Emunes.ppuTick ⟨0, 340, f, r⟩ = _
  simpa using emunes_tick_wrap 0 f r (by omega)

/-- A full EMUNES scanline among 1-260 takes 341 ticks. -/
theorem emunes_run_scanline (sl f r : Nat) (h0 : 1 ≤ sl) (h1 : sl ≤ 260) :
    Emunes.runPpu 341 ⟨sl, 0, f, r⟩ = ⟨sl + 1, 0, f, r⟩ := by
  have hs : (341 : Nat) = 340 + 1 := by omega
  rw [hs, emunes_runPpu_add]
  have h340 : Emunes.runPpu 340 ⟨sl, 0, f, r⟩ = ⟨sl, 340, f, r⟩ := by
    simpa using emunes_run_mid 340 sl 0 f r h0 h1 (by omega)
  rw [h340]
  show Emunes.ppuTick ⟨sl, 340, f, r⟩ = _
  exact emunes_tick_wrap sl f r (by omega)

/-- Stacked EMUNES scanlines 1 … 260: `341 * n` ticks from the start of
scanline 1 reach the start of scanline `1 + n`. -/
theorem emunes_run_scanlines (n f r : Nat) (h : n ≤ 260) :
    Emunes.runPpu (341 * n) ⟨1, 0, f, r⟩ = ⟨1 + n, 0, f, r⟩ := by
  induction n with
  | zero => rfl
  | succ j ih =>
      have hm : 341 * (j + 1) = 341 * j + 341 := by ring
      rw [hm, emunes_runPpu_add, ih (by omega)]
      have hr := emunes_run_scanline (1 + j) f r (by omega) (by omega)
      rw [hr]
      congr 1

/-- The pre-render scanline of an even EMUNES frame takes 341 ticks and
produces the frame wrap. -/
theorem emunes_run_261_full (r : Nat) :
    Emunes.runPpu 341 ⟨261, 0, 0, r⟩ = ⟨0, 0, 1, r + 1⟩ := by
  have hs : (341 : Nat) = 340 + 1 := by omega
  rw [hs, emunes_runPpu_add]
  have h340 : Emunes.runPpu 340 ⟨261, 0, 0, r⟩ = ⟨261, 340, 0, r⟩ := by
    simpa using emunes_run_261 340 0 r (by omega)
  rw [h340]
  show Emunes.ppuTick ⟨261, 340, 0, r⟩ = _
  exact emunes_tick_261_wrap r

/-- A full EMUNES frame from the fresh state takes 89341 ticks (not
89342): 340 ticks for scanline 0, then 260 full scanlines, then the
pre-render scanline. -/
theorem emunes_first_frame :
    Emunes.runPpu 89341 ⟨0, 0, 0, 0⟩ = ⟨0, 0, 1, 1⟩ := by
  have hs : (89341 : Nat) = 340 + (341 * 260 + 341) := by norm_num
  rw [hs, emunes_runPpu_add, emunes_run_scan0, emunes_runPpu_add,
      emunes_run_scanlines 260 0 0 (by omega)]
  have h261 : (1 + 260 : Nat) = 261 := by omega
  rw [h261]
  exact emunes_run_261_full 0


/-! ## Supporting lemmas: bit masks and branch timing -/

/-- Masking twice with the same mask is masking once. -/
theorem and_mask_idem (x m : Nat) : x &&& m &&& m = x &&& m := by
  rw [Nat.and_assoc, Nat.and_self]

/-- The 14-bit mask is a remainder. -/
theorem and_mask_3FFF (x : Nat) : x &&& 0x3FFF = x % 16384 :=
  Nat.and_pow_two_sub_one_eq_mod x 14

/-- The 5-bit mask is a remainder. -/
theorem and_mask_1F (x : Nat) : x &&& 0x1F = x % 32 :=
  Nat.and_pow_two_sub_one_eq_mod x 5

/-- The 14-bit mask fixes addresses that already fit. -/
theorem and_mask_3FFF_of_le (x : Nat) (h : x ≤ 0x3FFF) : x &&& 0x3FFF = x := by
  rw [and_mask_3FFF]
  omega

/-- Palette remapping ignores the 0x3F00 base. -/
theorem paletteIndex_offset (j : Nat) :
    Emunes.paletteIndex (0x3F00 + j) = Emunes.paletteIndex j := by
  unfold Emunes.paletteIndex
  rw [and_mask_1F, and_mask_1F]
  have h : (0x3F00 + j) % 32 = j % 32 := by omega
  rw [h]

/-- The symbolic cycle cost of one branch instruction of the EMUNES CPU:
unfolding `clock` for an opcode whose dispatch entry is `(REL, branch, 2)`
yields the base cost plus the taken/page-cross extras of `_branch`. -/
theorem clock_branch_cost_aux (st : Emunes.CpuState) (h0 : st.cycles = 0)
    (op : Emunes.Op) (cond : Nat → Bool)
    (hl : Emunes.lookup (st.mem (st.pc &&& 0xFFFF)) = (.rel, op, 2))
    (hop : ∀ s : Emunes.CpuState, Emunes.runOp op s = Emunes.execBranch (cond s.status) s) :
    (Emunes.clock st).cycles + 1 =
      2 + (if cond st.status then
             (if (((st.pc + 1) &&& 0xFFFF) + 1 + Emunes.sext8 (st.mem ((st.pc + 1) &&& 0xFFFF))) &&& 0xFF00
                 = (((st.pc + 1) &&& 0xFFFF) + 1) &&& 0xFF00 then 1 else 2)
           else 0) := by
  unfold Emunes.clock
  rw [if_pos h0]
  simp only [Emunes.cpuRead]
  rw [hl]
  simp only [Emunes.runMode, hop, Emunes.execBranch, Emunes.sext8, Emunes.cpuRead, and_mask_idem]
  split_ifs <;> simp_all

/-- Branch timing of the EMUNES CPU, for all eight branch opcodes and all
states about to fetch one: the instruction costs 2 cycles untaken, 3
taken on the same page, 4 taken across pages (the cost is the loaded
cycle counter plus the fetch call itself). -/
theorem emunes_branch_cost (st : Emunes.CpuState) (h0 : st.cycles = 0)
    (hop : st.mem (st.pc &&& 0xFFFF) ∈ Emunes.branchOpcodes) :
    (Emunes.clock st).cycles + 1 =
      2 + (if Emunes.branchCond (st.mem (st.pc &&& 0xFFFF)) st then
             (if (((st.pc + 1) &&& 0xFFFF) + 1 + Emunes.sext8 (st.mem ((st.pc + 1) &&& 0xFFFF))) &&& 0xFF00
                 = (((st.pc + 1) &&& 0xFFFF) + 1) &&& 0xFF00 then 1 else 2)
           else 0) := by
  simp only [Emunes.branchOpcodes, List.mem_cons, List.not_mem_nil, or_false] at hop
  rcases hop with h | h | h | h | h | h | h | h <;> rw [h] <;>
    first
      | exact clock_branch_cost_aux st h0 .bpl (fun v => !(v &&& Emunes.flagN != 0)) (by rw [h]; rfl) (fun s => rfl)
      | exact clock_branch_cost_aux st h0 .bmi (fun v => v &&& Emunes.flagN != 0) (by rw [h]; rfl) (fun s => rfl)
      | exact clock_branch_cost_aux st h0 .bvc (fun v => !(v &&& Emunes.flagV != 0)) (by rw [h]; rfl) (fun s => rfl)
      | exact clock_branch_cost_aux st h0 .bvs (fun v => v &&& Emunes.flagV != 0) (by rw [h]; rfl) (fun s => rfl)
      | exact clock_branch_cost_aux st h0 .bcc (fun v => !(v &&& Emunes.flagC != 0)) (by rw [h]; rfl) (fun s => rfl)
      | exact clock_branch_cost_aux st h0 .bcs (fun v => v &&& Emunes.flagC != 0) (by rw [h]; rfl) (fun s => rfl)
      | exact clock_branch_cost_aux st h0 .bne (fun v => !(v &&& Emunes.flagZ != 0)) (by rw [h]; rfl) (fun s => rfl)
      | exact clock_branch_cost_aux st h0 .beq (fun v => v &&& Emunes.flagZ != 0) (by rw [h]; rfl) (fun s => rfl)

/-- Any single EMUNES PPU-space write either leaves a palette cell alone
or stores the written byte masked to six bits. -/
theorem emunes_write_palette_cases (b : Emunes.PpuBus) (a d i : Nat) :
    (Emunes.busPpuWrite b a d).palette_ram i = b.palette_ram i ∨
    (Emunes.busPpuWrite b a d).palette_ram i = d &&& 0x3F := by
  unfold Emunes.busPpuWrite
  dsimp only
  split_ifs with h1 h2 h3
  · unfold Emunes.romWriteChr
    split_ifs <;> exact Or.inl rfl
  · exact Or.inl rfl
  · unfold Emunes.updFn
    dsimp only
    by_cases hi : i = Emunes.paletteIndex (a &&& 0x3FFF)
    · rw [if_pos hi]; exact Or.inr rfl
    · rw [if_neg hi]; exact Or.inl rfl
  · exact Or.inl rfl

/-- Any single MonikaNES PPU-space write either leaves a palette cell
alone or stores the written byte masked to six bits. -/
theorem monika_write_palette_cases (b : Monika.PpuBus) (a d i : Nat) :
    (Monika.busPpuWrite b a d).palette_ram i = b.palette_ram i ∨
    (Monika.busPpuWrite b a d).palette_ram i = d &&& 0x3F := by
  unfold Monika.busPpuWrite
  split_ifs with h1 h2 h3 h4
  · exact Or.inl rfl
  · exact Or.inl rfl
  · exact Or.inl rfl
  · unfold Emunes.updFn
    dsimp only
    by_cases hi : i = Monika.paletteIndex a
    · rw [if_pos hi]; exact Or.inr rfl
    · rw [if_neg hi]; exact Or.inl rfl
  · exact Or.inl rfl

/-! ## Claim theorems -/

/-- C1: the claim says a ROM whose iNES header declares a mapper id other
than 0 must fail Cartridge construction with an `UnsupportedMapperError`
and never execute under NROM decoding.  The CATNES5.23.251.0AA.py source
has no error path at all: with mapper id 1 the constructor completes
(after printing a warning) and `cpu_read` decodes PRG space exactly as
NROM, mirroring 0x8000 and 0xC000 onto the same first PRG byte. -/
theorem catnes_mapper1_constructs_and_decodes_nrom :
    Catnes.testRom.mapper_id = 1 ∧
    (Catnes.mkCartridge Catnes.testRom).prg_banks = 1 ∧
    Catnes.cpuRead (Catnes.mkCartridge Catnes.testRom) 0x8000 = Catnes.testRom.prg_rom 0 ∧
    Catnes.cpuRead (Catnes.mkCartridge Catnes.testRom) 0xC000 = Catnes.testRom.prg_rom 0 :=
  ⟨rfl, rfl, rfl, rfl⟩

/-- C2: the claim says any buffer whose declared PRG/CHR sizes exceed its
length — in particular a 10-byte file — must fail to load with a
truncation error and construct nothing.  The EMUNES5.23.251.0A.py
`NESRom.__init__` performs no size check: on a 10-byte buffer with a
valid magic that declares one 16KB PRG page it returns a constructed ROM
object whose PRG slice is silently clipped to empty. -/
theorem emunes_ten_byte_file_loads_without_error :
    Emunes.loadRom Emunes.tenByteFile =
      .ok { prg_rom_size := 16384, chr_rom_size := 0, mapper := 0, mirror_mode := 0,
            battery_backed := false, trainer_present := false,
            prg_rom := [], chr_rom := [], chr_ram_allocated := true } ∧
    Emunes.tenByteFile.length = 10 :=
  ⟨rfl, rfl⟩

/-- C3 counterexample: with the reset vector bytes 0x00/0x80 the claim
asserts a 7-cycle reset; the EMUNES5.23.251.0A.py `reset()` sets PC, SP
and the I flag as claimed but loads the cycle counter with 8, not 7. -/
theorem emunes_reset_costs_eight_not_seven :
    (Emunes.reset (Emunes.cpuInit Emunes.resetMem)).pc = 0x8000 ∧
    (Emunes.reset (Emunes.cpuInit Emunes.resetMem)).stkp = 0xFD ∧
    Emunes.getFlag (Emunes.reset (Emunes.cpuInit Emunes.resetMem)) Emunes.flagI = true ∧
    (Emunes.reset (Emunes.cpuInit Emunes.resetMem)).cycles = 8 ∧
    ¬ (Emunes.reset (Emunes.cpuInit Emunes.resetMem)).cycles = 7 :=
  ⟨rfl, rfl, rfl, rfl, by decide⟩

/-- C3 amended: for every memory state, after `reset()` the program
counter equals the little-endian pair at 0xFFFC/0xFFFD, the stack pointer
is 0xFD, interrupt-disable is set, and the per-instruction cycle counter
is loaded with 8 — in both EMUNES5.23.251.0A.py and MonikaNES.py. -/
theorem reset_loads_vector_sp_irq_and_eight_cycles :
    (∀ st : Emunes.CpuState,
       (Emunes.reset st).pc = (st.mem 0xFFFD <<< 8) ||| st.mem 0xFFFC ∧
       (Emunes.reset st).stkp = 0xFD ∧
       Emunes.getFlag (Emunes.reset st) Emunes.flagI = true ∧
       (Emunes.reset st).cycles = 8) ∧
    (∀ st : Monika.CpuState,
       (Monika.reset st).pc = (st.mem 0xFFFD <<< 8) ||| st.mem 0xFFFC ∧
       (Monika.reset st).stkp = 0xFD ∧
       (Monika.reset st).status = 0x24 ∧
       (Monika.reset st).cycles = 8) :=
  ⟨fun st =>
    ⟨rfl, rfl,
     by simp only [Emunes.getFlag]
        rw [show (Emunes.reset st).status = 0x24 from rfl]
        decide,
     rfl⟩,
   fun st => ⟨rfl, rfl, rfl, rfl⟩⟩

/-- C8: the claim says the PC stays within 0..65535 in every reachable
state, including after the operand fetches of the addressing modes.  In
EMUNES5.23.251.0A.py only the opcode fetch masks the PC; executing the
`LDA abs` opcode 0xAD located at 0xFFFE leaves PC = 0x10001 > 0xFFFF
after the two unmasked operand-fetch increments. -/
theorem emunes_pc_exceeds_16_bits_after_abs_operand_fetch :
    (Emunes.clock Emunes.wrapState).pc = 0x10001 ∧
    0xFFFF < (Emunes.clock Emunes.wrapState).pc :=
  ⟨rfl, by decide⟩

/-- C9: executing `ADC #$50` with A = 0x50 and carry clear through the
full EMUNES5.23.251.0A.py fetch-dispatch-execute cycle leaves A = 0xA0
with V set, C clear, N set and Z clear, exactly as the claim states. -/
theorem emunes_adc_50_plus_50_overflow_flags :
    (Emunes.clock Emunes.adcState).a = 0xA0 ∧
    Emunes.getFlag (Emunes.clock Emunes.adcState) Emunes.flagV = true ∧
    Emunes.getFlag (Emunes.clock Emunes.adcState) Emunes.flagC = false ∧
    Emunes.getFlag (Emunes.clock Emunes.adcState) Emunes.flagN = true ∧
    Emunes.getFlag (Emunes.clock Emunes.adcState) Emunes.flagZ = false :=
  ⟨rfl, rfl, rfl, rfl, rfl⟩

/-- C6: the claim says every branch costs base cycles untaken, base + 1
taken on the same page, and base + 2 in total taken across pages.  The
EMUNES5.23.251.0A.py `_branch` satisfies this (first three conjuncts, at
the concrete taken/untaken/page-cross instances; the base is 2); the
MonikaNES.py `branch` adds 1 + 2 = 3 cycles to a taken page-crossing
branch — its own comment announces "add another cycle" — so the same
page-crossing branch costs base + 3 there, refuting the claim. -/
theorem branch_costs_emunes_conform_monika_add_three :
    (Emunes.clock Emunes.branchStateFar).cycles + 1 = 4 ∧
    (Emunes.clock Emunes.branchStateNear).cycles + 1 = 3 ∧
    (Emunes.clock Emunes.branchStateUntaken).cycles + 1 = 2 ∧
    (Monika.branch true Monika.branchState0).cycles = Monika.branchState0.cycles + 3 :=
  ⟨rfl, rfl, rfl, rfl⟩

/-- C4: the claim says 262 × 341 = 89342 clock calls from the fresh
scanline/cycle pair raise `frame_complete` exactly once and return the
counters to the initial pair.  MonikaNES.py satisfies this exactly (first
conjunct: counters back to (0, 0), one raise).  EMUNES5.23.251.0A.py
skips cycle 0 of scanline 0 every frame, so its frame from (0, 0) takes
only 89341 calls: after 89342 calls the counters sit at (0, 2) — one
raise has occurred, but the counters are not back at the initial pair. -/
theorem ppu_frame_counters_monika_exact_emunes_skewed :
    Monika.runPpu 89342 ⟨0, 0, 0⟩ = ⟨0, 0, 1⟩ ∧
    Emunes.runPpu 89342 ⟨0, 0, 0, 0⟩ = ⟨0, 2, 1, 1⟩ := by
  constructor
  · have hs : (89342 : Nat) = 341 * 261 + 341 := by norm_num
    rw [hs, monika_runPpu_add, monika_run_scanlines 261 0 (by omega)]
    have h340 : Monika.runPpu 340 ⟨261, 0, 0⟩ = ⟨261, 340, 0⟩ := by
      simpa using monika_run_mid 340 261 0 0 (by omega)
    have hs2 : (341 : Nat) = 340 + 1 := by omega
    rw [hs2, monika_runPpu_add, h340]
    show Monika.ppuTick ⟨261, 340, 0⟩ = _
    rfl
  · have hs : (89342 : Nat) = 89341 + 1 := by norm_num
    rw [hs, emunes_runPpu_add, emunes_first_frame]
    show Emunes.ppuTick ⟨0, 0, 1, 1⟩ = _
    exact emunes_tick_origin 1 1

/-- A PPU-space write to palette entry `a` as seen through a later
palette read of entry `j`: the read returns the freshly written (masked)
byte exactly when the two entries remap to the same cell, and the old
cell otherwise. -/
theorem emunes_write_palette_read (b : Emunes.PpuBus) (d a j : Nat)
    (ha : a ≤ 0x1F) (hj : j ≤ 0x1F) :
    Emunes.busPpuRead (Emunes.busPpuWrite b (0x3F00 + a) d) (0x3F00 + j) =
      (if Emunes.paletteIndex j = Emunes.paletteIndex a then d &&& 0x3F
       else b.palette_ram (Emunes.paletteIndex j) &&& 0x3F) := by
  unfold Emunes.busPpuWrite Emunes.busPpuRead
  have h1 : (0x3F00 + a) &&& 0x3FFF = 0x3F00 + a := and_mask_3FFF_of_le _ (by omega)
  have h2 : (0x3F00 + j) &&& 0x3FFF = 0x3F00 + j := and_mask_3FFF_of_le _ (by omega)
  rw [h1, h2]
  rw [if_neg (by omega), if_neg (by omega), if_pos (by omega)]
  rw [if_neg (by omega), if_neg (by omega), if_pos (by omega)]
  dsimp only
  rw [paletteIndex_offset a, paletteIndex_offset j]
  unfold Emunes.updFn
  by_cases heq : Emunes.paletteIndex j = Emunes.paletteIndex a
  · rw [if_pos heq, if_pos heq, and_mask_idem]
  · rw [if_neg heq, if_neg heq]

/-- Palette cells of the EMUNES bus stay below 0x40 under any sequence of
PPU-space writes, given they start below 0x40. -/
theorem emunes_palette_invariant (ws : List (Nat × Nat)) :
    ∀ b : Emunes.PpuBus, (∀ j, j < 32 → b.palette_ram j < 0x40) →
      ∀ i, i < 32 → (Emunes.applyPpuWrites ws b).palette_ram i < 0x40 := by
  induction ws with
  | nil => intro b hb i hi; exact hb i hi
  | cons w rest ih =>
      intro b hb i hi
      show (Emunes.applyPpuWrites rest (Emunes.busPpuWrite b w.1 w.2)).palette_ram i < 0x40
      refine ih _ ?_ i hi
      intro j hj
      rcases emunes_write_palette_cases b w.1 w.2 j with h | h
      · rw [h]; exact hb j hj
      · rw [h]
        have hle : w.2 &&& 0x3F ≤ 0x3F := Nat.and_le_right
        omega

/-- Palette cells of the MonikaNES bus stay below 0x40 under any sequence
of PPU-space writes, given they start below 0x40. -/
theorem monika_palette_invariant (ws : List (Nat × Nat)) :
    ∀ b : Monika.PpuBus, (∀ j, j < 32 → b.palette_ram j < 0x40) →
      ∀ i, i < 32 → (Monika.applyPpuWrites ws b).palette_ram i < 0x40 := by
  induction ws with
  | nil => intro b hb i hi; exact hb i hi
  | cons w rest ih =>
      intro b hb i hi
      show (Monika.applyPpuWrites rest (Monika.busPpuWrite b w.1 w.2)).palette_ram i < 0x40
      refine ih _ ?_ i hi
      intro j hj
      rcases monika_write_palette_cases b w.1 w.2 j with h | h
      · rw [h]; exact hb j hj
      · rw [h]
        have hle : w.2 &&& 0x3F ≤ 0x3F := Nat.and_le_right
        omega

/-- C5: starting from a PPU whose write toggle is clear (and whose `t`
register has bit 15 clear, as every reachable `t` does — no port write
ever sets it), two writes of 0x00 to PPUADDR leave the internal VRAM
address `v` at 0x0000.  Afterwards — in fact from any state — a PPUDATA
read with `v` outside 0x3F00-0x3FFF returns the previously buffered byte
while refilling the buffer from `v`, and a read with `v` inside
0x3F00-0x3FFF returns the palette value immediately. -/
theorem ppuaddr_zero_writes_and_ppudata_buffering :
    (∀ (p : Emunes.Ppu) (b : Emunes.PpuBus), p.w = 0 → p.t &&& 0x8000 = 0 →
       ((Emunes.ppuCpuWrite ((Emunes.ppuCpuWrite p b 0x2006 0x00).1)
           ((Emunes.ppuCpuWrite p b 0x2006 0x00).2) 0x2006 0x00).1).v = 0) ∧
    (∀ (p : Emunes.Ppu) (b : Emunes.PpuBus), p.v < 0x3F00 →
       (Emunes.ppuCpuRead p b 0x2007).1 = p.ppudata_buffer ∧
       ((Emunes.ppuCpuRead p b 0x2007).2).ppudata_buffer = Emunes.busPpuRead b p.v) ∧
    (∀ (p : Emunes.Ppu) (b : Emunes.PpuBus), 0x3F00 ≤ p.v → p.v ≤ 0x3FFF →
       (Emunes.ppuCpuRead p b 0x2007).1 = b.palette_ram (Emunes.paletteIndex p.v) &&& 0x3F) := by
  refine ⟨?_, ?_, ?_⟩
  · intro p b hw ht
    unfold Emunes.ppuCpuWrite
    norm_num
    rw [if_pos hw]
    norm_num
    rw [Nat.and_assoc]
    exact ht
  · intro p b hv
    unfold Emunes.ppuCpuRead
    rw [if_neg (by decide), if_neg (by decide), if_pos rfl]
    dsimp only
    rw [if_neg (by omega)]
    exact ⟨rfl, rfl⟩
  · intro p b h1 h2
    unfold Emunes.ppuCpuRead
    norm_num
    rw [if_pos (by omega)]
    unfold Emunes.busPpuRead
    rw [and_mask_3FFF_of_le _ h2]
    rw [if_neg (by omega), if_neg (by omega), if_pos (by omega)]

/-- C5 witness: the fresh PPU drives each conjunct — two 0x00 PPUADDR
writes zero `v`; a PPUDATA read at `v = 0` is buffered; a read at
`v = 0x3F00` is an immediate palette read. -/
theorem ppuaddr_witness :
    ((Emunes.ppuCpuWrite ((Emunes.ppuCpuWrite Emunes.ppuInit Emunes.ppuBus0 0x2006 0x00).1)
        ((Emunes.ppuCpuWrite Emunes.ppuInit Emunes.ppuBus0 0x2006 0x00).2) 0x2006 0x00).1).v = 0 ∧
    (Emunes.ppuCpuRead Emunes.ppuInit Emunes.ppuBus0 0x2007).1 = Emunes.ppuInit.ppudata_buffer ∧
    (Emunes.ppuCpuRead Emunes.ppuAtPalette Emunes.ppuBus0 0x2007).1 =
      Emunes.ppuBus0.palette_ram (Emunes.paletteIndex Emunes.ppuAtPalette.v) &&& 0x3F :=
  ⟨ppuaddr_zero_writes_and_ppudata_buffering.1 Emunes.ppuInit Emunes.ppuBus0 rfl (by decide),
   (ppuaddr_zero_writes_and_ppudata_buffering.2.1 Emunes.ppuInit Emunes.ppuBus0 (by decide)).1,
   ppuaddr_zero_writes_and_ppudata_buffering.2.2 Emunes.ppuAtPalette Emunes.ppuBus0 (by decide) (by decide)⟩

/-- C7: the claim says entries 0x10/0x14/0x18/0x1C alias 0x00/0x04/0x08/
0x0C pairwise, writes through one side being observed through the other
with all other entries untouched.  The EMUNES5.23.251.0A.py bus satisfies
this for every bus state, written value and alias pair, in both
directions (first conjunct).  MonikaNES.py instead collapses ALL of
0x04-0x1C (step 4) onto entry 0x00: writing 0x05 through 0x3F14 there is
observed through 0x3F00 — an entry outside 0x14's alias pair, which the
claim requires to stay unaffected (it read 0x00 beforehand). -/
theorem palette_alias_emunes_pairwise_monika_collapsed :
    (∀ pr ∈ Emunes.aliasPairs, ∀ (b : Emunes.PpuBus) (d : Nat),
       Emunes.busPpuRead (Emunes.busPpuWrite b (0x3F00 + pr.1) d) (0x3F00 + pr.2) = d &&& 0x3F ∧
       Emunes.busPpuRead (Emunes.busPpuWrite b (0x3F00 + pr.1) d) (0x3F00 + pr.1) = d &&& 0x3F ∧
       (∀ j, j ≤ 0x1F → Emunes.paletteIndex j ≠ Emunes.paletteIndex pr.1 →
          Emunes.busPpuRead (Emunes.busPpuWrite b (0x3F00 + pr.1) d) (0x3F00 + j) =
            Emunes.busPpuRead b (0x3F00 + j))) ∧
    (Monika.busPpuRead (Monika.busPpuWrite Monika.ppuBus0 0x3F14 0x05) 0x3F00 = 0x05 ∧
     Monika.busPpuRead Monika.ppuBus0 0x3F00 = 0x00) := by
  constructor
  · intro pr hmem b d
    fin_cases hmem <;>
      exact ⟨by rw [emunes_write_palette_read b d _ _ (by decide) (by decide), if_pos (by decide)],
             by rw [emunes_write_palette_read b d _ _ (by decide) (by decide), if_pos (by decide)],
             fun j hj hne => by
               rw [emunes_write_palette_read b d _ j (by decide) hj, if_neg hne]
               have h2 : (0x3F00 + j) &&& 0x3FFF = 0x3F00 + j := and_mask_3FFF_of_le _ (by omega)
               unfold Emunes.busPpuRead
               rw [h2, if_neg (by omega), if_neg (by omega), if_pos (by omega), paletteIndex_offset j]⟩
  · exact ⟨rfl, rfl⟩

/-- C7 witness: the pair (0x10, 0x00) on the fresh bus with the written
byte 0xFF — the write is observed through the partner, and the non-alias
entry 0x04 keeps its old value. -/
theorem palette_alias_witness :
    Emunes.busPpuRead (Emunes.busPpuWrite Emunes.ppuBus0 (0x3F00 + 0x10) 0xFF) (0x3F00 + 0x00) = 0xFF &&& 0x3F ∧
    Emunes.busPpuRead (Emunes.busPpuWrite Emunes.ppuBus0 (0x3F00 + 0x10) 0xFF) (0x3F00 + 0x04) =
      Emunes.busPpuRead Emunes.ppuBus0 (0x3F00 + 0x04) :=
  ⟨(palette_alias_emunes_pairwise_monika_collapsed.1 (0x10, 0x00) (by decide) Emunes.ppuBus0 0xFF).1,
   (palette_alias_emunes_pairwise_monika_collapsed.1 (0x10, 0x00) (by decide) Emunes.ppuBus0 0xFF).2.2
     0x04 (by decide) (by decide)⟩

/-- C10: the palette RAM starts zeroed (the fresh bus carries the
`bytearray(32)` of `PPU2C02.__init__`), and since the only operation that
stores into it — a bus PPU write in 0x3F00-0x3FFF — masks the byte with
0x3F, every entry stays strictly below 0x40 across any sequence of
PPU-space writes, in both EMUNES5.23.251.0A.py and MonikaNES.py. -/
theorem palette_entries_stay_below_0x40 :
    (∀ i, i < 32 → Emunes.ppuBus0.palette_ram i = 0) ∧
    (∀ (b : Emunes.PpuBus) (ws : List (Nat × Nat)) (i : Nat),
       (∀ j, j < 32 → b.palette_ram j < 0x40) → i < 32 →
       (Emunes.applyPpuWrites ws b).palette_ram i < 0x40) ∧
    (∀ (b : Monika.PpuBus) (ws : List (Nat × Nat)) (i : Nat),
       (∀ j, j < 32 → b.palette_ram j < 0x40) → i < 32 →
       (Monika.applyPpuWrites ws b).palette_ram i < 0x40) :=
  ⟨fun _ _ => rfl,
   fun b ws i hb hi => emunes_palette_invariant ws b hb i hi,
   fun b ws i hb hi => monika_palette_invariant ws b hb i hi⟩

/-- C10 witness: the out-of-range byte 0xFF written through the aliased
address 0x3F10 lands in entry 0 of either bus masked to 0x3F < 0x40. -/
theorem palette_entries_witness :
    (Emunes.applyPpuWrites [(0x3F10, 0xFF)] Emunes.ppuBus0).palette_ram 0 < 0x40 ∧
    (Monika.applyPpuWrites [(0x3F10, 0xFF)] Monika.ppuBus0).palette_ram 0 < 0x40 :=
  ⟨palette_entries_stay_below_0x40.2.1 Emunes.ppuBus0 [(0x3F10, 0xFF)] 0
     (fun j hj => by show (0 : Nat) < 0x40; decide) (by decide),
   palette_entries_stay_below_0x40.2.2 Monika.ppuBus0 [(0x3F10, 0xFF)] 0
     (fun j hj => by show (0 : Nat) < 0x40; decide) (by decide)⟩
